import Mathlib

/-
Shallow embedding of the ocm-operator reconciliation core:
  - src/controllers/controllers.go (dispatcher, ReconcileError, finalizer manager)
  - src/controllers/ldapidentityprovider/phases.go (phase functions)
  - src/pkg/conditions/identity_provider.go (deleted condition)
Collaborators (the OCM external store and the Kubernetes object store) are
modelled as stub outcomes supplied to each function, with call counters
recording every mutating call issued against them.  Repository code that is
referenced but absent from the sources (the triggers package, the conditions
merge logic, request.desired, the pipeline runner) is modelled from the spec
and marked as such in its doc comment.
-/

set_option autoImplicit false

namespace OcmOperator

/-- Go error values: a not-found kind (recognised by apierrs.IsNotFound), a
base sentinel error, or an error wrapping another with a context message, as
produced by the %w verb of fmt.Errorf. -/
inductive GoError
  | notFound (msg : String)
  | base (msg : String)
  | wrapped (msg : String) (inner : GoError)
deriving DecidableEq, Repr

/-- Model of apierrs.IsNotFound: true exactly for the not-found error kind. -/
def GoError.isNotFound : GoError → Bool
  | GoError.notFound _ => true
  | _ => false

/-- Repeated unwrapping, as errors.Is would perform: does the error chain of
the first argument reach the second? -/
def GoError.unwrapsTo : GoError → GoError → Bool
  | GoError.wrapped msg inner, target =>
    decide (GoError.wrapped msg inner = target) || GoError.unwrapsTo inner target
  | e, target => decide (e = target)

/-- Lifts unwrapping to Go error results, where none is the nil error. -/
def errWraps (err : Option GoError) (target : GoError) : Bool :=
  match err with
  | none => false
  | some e => e.unwrapsTo target

/-- Sentinel error from controllers.go. -/
def ErrConvertClientObject : GoError :=
  GoError.base "unable to convert to client object"

/-- Modelled from the spec: triggers.ErrTriggerUnknown from the missing
pkg/triggers package, the classification-failure sentinel. -/
def ErrTriggerUnknown : GoError := GoError.base "trigger is unknown"

/-- Modelled from the spec: ldapidentityprovider.ErrMissingClusterID from the
missing errors file of the ldapidentityprovider package. -/
def ErrMissingClusterID : GoError := GoError.base "missing cluster id"

/-- Model of ctrl.Result: a requeue flag plus a requeue-after interval,
measured in seconds. -/
structure CtrlResult where
  requeue : Bool
  requeueAfter : Nat
deriving DecidableEq, Repr

/-- RequeueAfter from controllers.go: requeue after the given interval. -/
def RequeueAfter (seconds : Nat) : CtrlResult :=
  { requeue := true, requeueAfter := seconds }

/-- NoRequeue from controllers.go: the blank result preventing a requeue. -/
def NoRequeue : CtrlResult :=
  { requeue := false, requeueAfter := 0 }

/-- The 30-second default requeue interval of the ldapidentityprovider
phases. -/
def defaultLDAPIdentityProviderRequeue : Nat := 30

/-- Modelled from the spec: the trigger type of the missing pkg/triggers
package; the classifier yields one of Create, Update, Delete, with Unknown
as the failure value behind ErrTriggerUnknown. -/
inductive Trigger
  | create
  | update
  | delete
  | unknown
deriving DecidableEq, Repr

/-- Modelled from the spec: the String method of the trigger type. -/
def Trigger.toString : Trigger → String
  | Trigger.create => "Create"
  | Trigger.update => "Update"
  | Trigger.delete => "Delete"
  | Trigger.unknown => "Unknown"

/-- Modelled from the spec: triggers.CreateString. -/
def CreateString : String := "Create"

/-- Modelled from the spec: triggers.UpdateString. -/
def UpdateString : String := "Update"

/-- Modelled from the spec: triggers.DeleteString. -/
def DeleteString : String := "Delete"

/-- Status values of a Kubernetes metav1.Condition. -/
inductive ConditionStatus
  | isTrue
  | isFalse
  | isUnknown
deriving DecidableEq, Repr

/-- Kubernetes metav1.Condition, with the last transition time as a natural
number timestamp. -/
structure Condition where
  type : String
  status : ConditionStatus
  reason : String
  message : String
  lastTransitionTime : Nat
deriving DecidableEq, Repr

/-- Spec fields of the LDAPIdentityProvider custom resource compared for
drift; the api/v1alpha1 types are outside the sampled sources, so the fields
named by phases.go are modelled directly, with the LDAP url/bind/attribute
block that CopyFrom transfers condensed into one ldapConfig field. -/
structure LDAPIdentityProviderSpec where
  clusterName : String
  displayName : String
  bindPasswordName : String
  caName : String
  mappingMethod : String
  ldapConfig : String
deriving DecidableEq, Repr

/-- Status sub-resource of the LDAPIdentityProvider custom resource. -/
structure LDAPIdentityProviderStatus where
  clusterID : String
  providerID : String
deriving DecidableEq, Repr

/-- The LDAPIdentityProvider workload object: kind/group metadata (for the
finalizer token), the finalizer set, the deletion marker, spec, status and
status conditions. -/
structure LDAPIdentityProvider where
  kind : String
  group : String
  finalizers : List String
  deletionTimestamp : Option Nat
  spec : LDAPIdentityProviderSpec
  status : LDAPIdentityProviderStatus
  conditions : List Condition
deriving DecidableEq, Repr

/-- Reconcile request identity (ctrl.Request): namespace and name. -/
structure ReconcileRequest where
  namespaceName : String
  name : String
deriving DecidableEq, Repr

/-- ReconcileError from controllers.go: returns nil when given a nil error,
otherwise wraps the error with the request identity and message. -/
def ReconcileError (request : ReconcileRequest) (message : String)
    (err : Option GoError) : Option GoError :=
  match err with
  | none => none
  | some e =>
    some (GoError.wrapped
      ("request=" ++ request.namespaceName ++ "/" ++ request.name ++
        ", message=" ++ message) e)

/-- The finalizer suffix constant of controllers.go. -/
def defaultFinalizerSuffix : String := "finalizer"

/-- ASCII lowercasing of one character, as strings.ToLower performs on the
ASCII kind and group names this code base uses. -/
def asciiToLower (c : Char) : Char :=
  if 65 ≤ c.toNat ∧ c.toNat ≤ 90 then Char.ofNat (c.toNat + 32) else c

/-- Kernel-computable model of strings.ToLower over ASCII strings. -/
def stringToLower (s : String) : String :=
  String.mk (s.data.map asciiToLower)

/-- FinalizerName from controllers.go: the deterministic finalizer token
lower(kind.group/finalizer) computed from the object kind and group. -/
def FinalizerName (object : LDAPIdentityProvider) : String :=
  stringToLower (object.kind ++ "." ++ object.group ++ "/" ++ defaultFinalizerSuffix)

/-- Modelled from the spec: utils.ContainsString from the missing pkg/utils
package — membership test on a string slice. -/
def ContainsString (list : List String) (s : String) : Bool :=
  list.any (fun item => decide (item = s))

/-- Outcomes the Kubernetes object store (the controller-runtime client)
returns for the patch and status-patch calls a reconciliation issues. -/
structure ObjectStoreStub where
  patchResult : Option GoError
  patchStatusResult : Option GoError
deriving DecidableEq, Repr

/-- AddFinalizer from controllers.go: when the deterministic token is absent
it is inserted (controllerutil.AddFinalizer appends it) and one merge-patch
is issued against the object store; when present the call is a no-op.
Returns the resulting object, the number of patch calls issued, and the
error. -/
def AddFinalizer (store : ObjectStoreStub) (object : LDAPIdentityProvider) :
    LDAPIdentityProvider × Nat × Option GoError :=
  if ContainsString object.finalizers (FinalizerName object) then
    (object, 0, none)
  else
    let mutated :=
      { object with finalizers := object.finalizers ++ [FinalizerName object] }
    match store.patchResult with
    | some e => (mutated, 1, some (GoError.wrapped "unable to add finalizer" e))
    | none => (mutated, 1, none)

/-- RemoveFinalizer from controllers.go: when the deterministic token is
present it is removed (controllerutil.RemoveFinalizer drops every occurrence)
and one merge-patch is issued; when absent the call is a no-op. -/
def RemoveFinalizer (store : ObjectStoreStub) (object : LDAPIdentityProvider) :
    LDAPIdentityProvider × Nat × Option GoError :=
  if ContainsString object.finalizers (FinalizerName object) then
    let mutated :=
      { object with finalizers :=
          object.finalizers.filter (fun f => decide (f ≠ FinalizerName object)) }
    match store.patchResult with
    | some e => (mutated, 1, some (GoError.wrapped "unable to remove finalizer" e))
    | none => (mutated, 1, none)
  else
    (object, 0, none)

/-- The remote identity provider entity as reported by OCM: its id, mapping
method, and the LDAP block CopyFrom transfers into Current. -/
structure IdpEntity where
  id : String
  mappingMethod : String
  ldap : String
deriving DecidableEq, Repr

/-- Outcomes the OCM external store returns for the calls GetCurrentState,
Apply and Destroy issue: the cluster lookup, the identity provider lookup,
and the create/update/delete mutations. -/
structure OCMStub where
  clusterGetErr : Option GoError
  clusterGetID : String
  idpGetErr : Option GoError
  idpGetEntity : Option IdpEntity
  createErr : Option GoError
  updateErr : Option GoError
  deleteErr : Option GoError
deriving DecidableEq, Repr

/-- Counters of the mutating calls a phase issued against the external store
and the object store. -/
structure Calls where
  create : Nat
  update : Nat
  delete : Nat
  patch : Nat
  patchStatus : Nat
deriving DecidableEq, Repr

/-- The all-zero call counter. -/
def Calls.zero : Calls :=
  { create := 0, update := 0, delete := 0, patch := 0, patchStatus := 0 }

/-- Componentwise sum of call counters. -/
def Calls.add (a b : Calls) : Calls :=
  { create := a.create + b.create
    update := a.update + b.update
    delete := a.delete + b.delete
    patch := a.patch + b.patch
    patchStatus := a.patchStatus + b.patchStatus }

/-- The LDAPIdentityProviderRequest of one reconciliation attempt: the
original object snapshot, the desired object, the lazily discovered current
state, and the trigger recorded on the request. -/
structure LDAPIdentityProviderRequest where
  original : LDAPIdentityProvider
  desired : LDAPIdentityProvider
  current : Option LDAPIdentityProvider
  trigger : Trigger
deriving DecidableEq, Repr

/-- Outcome of one phase function: the ctrl.Result, the error, the request
as left by the phase, the call counters, and the (before, after) object
pairs handed to every status patch. -/
structure PhaseOutcome where
  result : CtrlResult
  err : Option GoError
  request : LDAPIdentityProviderRequest
  calls : Calls
  patchStatusArgs : List (LDAPIdentityProvider × LDAPIdentityProvider)
deriving DecidableEq, Repr

/-- The condition type constant of pkg/conditions/identity_provider.go. -/
def identityProviderConditionTypeDeleted : String := "IdentityProviderDeleted"

/-- The condition message constant of pkg/conditions/identity_provider.go. -/
def identityProviderMessageDeleted : String :=
  "identity provider has been deleted from openshift cluster manager"

/-- IdentityProviderDeleted from pkg/conditions/identity_provider.go: the
condition marking the identity provider as deleted from OCM, stamped with the
current time. -/
def IdentityProviderDeleted (now : Nat) : Condition :=
  { type := identityProviderConditionTypeDeleted
    status := ConditionStatus.isTrue
    reason := Trigger.delete.toString
    message := identityProviderMessageDeleted
    lastTransitionTime := now }

/-- Modelled from the spec: conditions.MachinePoolDeleted from the missing
machine-pool conditions file, the condition the Destroy phase actually sets
after a successful remote delete; by symmetry with IdentityProviderDeleted
its type is MachinePoolDeleted, a type distinct from the one the Destroy
guard checks. -/
def MachinePoolDeleted (now : Nat) : Condition :=
  { type := "MachinePoolDeleted"
    status := ConditionStatus.isTrue
    reason := Trigger.delete.toString
    message := "machine pool has been deleted from openshift cluster manager"
    lastTransitionTime := now }

/-- Modelled from the spec: conditions.Reconciling from the missing common
conditions file — the condition set by Begin, typed Reconciling with the
trigger as reason. -/
def Reconciling (trigger : Trigger) (now : Nat) : Condition :=
  { type := "Reconciling"
    status := ConditionStatus.isTrue
    reason := trigger.toString
    message := "beginning reconciliation"
    lastTransitionTime := now }

/-- Modelled from the spec: conditions.Reconciled from the missing common
conditions file — the condition set by Complete on successful pipeline
completion. -/
def Reconciled (trigger : Trigger) (now : Nat) : Condition :=
  { type := "Reconciled"
    status := ConditionStatus.isTrue
    reason := trigger.toString
    message := "completed reconciliation"
    lastTransitionTime := now }

/-- Modelled from the spec: the SetCondition merge of the missing conditions
package — scan for an existing condition of the same type; when found with
unchanged status replace message and reason only, leaving the transition
time untouched; when the status differs or the type is new, replace or
append the condition stamped with the current time. -/
def setCondition (conds : List Condition) (c : Condition) (now : Nat) :
    List Condition :=
  match conds with
  | [] => [{ c with lastTransitionTime := now }]
  | e :: rest =>
    if e.type = c.type then
      (if e.status = c.status then
        { e with reason := c.reason, message := c.message }
      else
        { c with lastTransitionTime := now }) :: rest
    else
      e :: setCondition rest c now

/-- First recorded condition of the given type, if any. -/
def findCondition (conds : List Condition) (t : String) : Option Condition :=
  conds.find? (fun c => decide (c.type = t))

/-- Modelled from the spec: conditions.IsSet from the missing conditions
package — pure lookup reporting whether the object already records a
condition with the given type and status. -/
def IsSet (condition : Condition) (object : LDAPIdentityProvider) : Bool :=
  object.conditions.any
    (fun c => decide (c.type = condition.type) && decide (c.status = condition.status))

/-- Modelled from the spec: request.updateCondition from the missing
request.go — merges the condition into the object with SetCondition and
persists it through one status-only patch against the object store; the
mutation sticks even when the patch fails.  Returns the updated request, the
number of status patches issued, and the patch error. -/
def updateCondition (store : ObjectStoreStub) (now : Nat)
    (request : LDAPIdentityProviderRequest) (c : Condition) :
    LDAPIdentityProviderRequest × Nat × Option GoError :=
  let mutated :=
    { request.original with
        conditions := setCondition request.original.conditions c now }
  ({ request with original := mutated }, 1, store.patchStatusResult)

/-- Modelled from the spec: request.desired from the missing request.go —
true iff Current is non-nil and structurally equal to Desired over all spec
fields. -/
def LDAPIdentityProviderRequest.desiredState
    (request : LDAPIdentityProviderRequest) : Bool :=
  match request.current with
  | none => false
  | some current => decide (current.spec = request.desired.spec)

/-- Begin from phases.go: set the Reconciling condition; on patch failure
requeue after the default interval with a wrapped error. -/
def Begin (store : ObjectStoreStub) (now : Nat)
    (request : LDAPIdentityProviderRequest) : PhaseOutcome :=
  let upd := updateCondition store now request (Reconciling request.trigger now)
  match upd.2.2 with
  | some e =>
    { result := RequeueAfter defaultLDAPIdentityProviderRequeue
      err := some (GoError.wrapped "error updating reconciling condition" e)
      request := upd.1
      calls := { Calls.zero with patchStatus := upd.2.1 }
      patchStatusArgs := [] }
  | none =>
    { result := NoRequeue
      err := none
      request := upd.1
      calls := { Calls.zero with patchStatus := upd.2.1 }
      patchStatusArgs := [] }

/-- The current-state object GetCurrentState builds when OCM reports an
identity provider: a fresh object whose cluster name, display name, bind
password secret name and CA name are copied from Desired, while the mapping
method and the LDAP block come from the remote entity. -/
def currentFromRemote (request : LDAPIdentityProviderRequest)
    (idp : IdpEntity) : LDAPIdentityProvider :=
  { kind := ""
    group := ""
    finalizers := []
    deletionTimestamp := none
    spec :=
      { clusterName := request.desired.spec.clusterName
        displayName := request.desired.spec.displayName
        bindPasswordName := request.desired.spec.bindPasswordName
        caName := request.desired.spec.caName
        mappingMethod := idp.mappingMethod
        ldapConfig := idp.ldap }
    status := { clusterID := "", providerID := "" }
    conditions := [] }

/-- The tail of GetCurrentState once the cluster id is resolved: look the
identity provider up in OCM; when absent return success leaving the request
untouched; when present record the cluster and provider ids in status via a
status patch diffed against the pre-mutation object, then populate
Current. -/
def getCurrentStateAfterCluster (ocm : OCMStub) (store : ObjectStoreStub)
    (request : LDAPIdentityProviderRequest) (clusterID : String) :
    PhaseOutcome :=
  match ocm.idpGetErr with
  | some e =>
    { result := RequeueAfter defaultLDAPIdentityProviderRequeue
      err := some (GoError.wrapped "unable to retrieve identity provider from ocm" e)
      request := request
      calls := Calls.zero
      patchStatusArgs := [] }
  | none =>
    match ocm.idpGetEntity with
    | none =>
      { result := NoRequeue
        err := none
        request := request
        calls := Calls.zero
        patchStatusArgs := [] }
    | some idp =>
      let originalCopy := request.original
      let mutated :=
        { request.original with
            status := { clusterID := clusterID, providerID := idp.id } }
      match store.patchStatusResult with
      | some e =>
        { result := RequeueAfter defaultLDAPIdentityProviderRequeue
          err := some (GoError.wrapped
            ("unable to update status.providerID=" ++ idp.id) e)
          request := { request with original := mutated }
          calls := { Calls.zero with patchStatus := 1 }
          patchStatusArgs := [(originalCopy, mutated)] }
      | none =>
        { result := NoRequeue
          err := none
          request :=
            { request with
                original := mutated
                current := some (currentFromRemote request idp) }
          calls := { Calls.zero with patchStatus := 1 }
          patchStatusArgs := [(originalCopy, mutated)] }

/-- GetCurrentState from phases.go: resolve the cluster id (from status, or
else from a cluster lookup that must return a non-empty id), then fetch the
identity provider and either leave Current nil (not found) or persist the
resolved identifiers and populate Current. -/
def GetCurrentState (ocm : OCMStub) (store : ObjectStoreStub)
    (request : LDAPIdentityProviderRequest) : PhaseOutcome :=
  if request.original.status.clusterID = "" then
    match ocm.clusterGetErr with
    | some e =>
      { result := RequeueAfter defaultLDAPIdentityProviderRequeue
        err := some (GoError.wrapped
          ("unable to retrieve cluster from ocm name=" ++
            request.desired.spec.clusterName) e)
        request := request
        calls := Calls.zero
        patchStatusArgs := [] }
    | none =>
      if ocm.clusterGetID = "" then
        { result := RequeueAfter defaultLDAPIdentityProviderRequeue
          err := some (GoError.wrapped "missing cluster id in response"
            ErrMissingClusterID)
          request := request
          calls := Calls.zero
          patchStatusArgs := [] }
      else
        getCurrentStateAfterCluster ocm store request ocm.clusterGetID
  else
    getCurrentStateAfterCluster ocm store request
      request.original.status.clusterID

/-- ApplyIdentityProvider from phases.go: return at once when the request is
already in its desired state; otherwise create the identity provider when
Current is nil, else update it, requeueing with a wrapped error when the
external call fails. -/
def ApplyIdentityProvider (ocm : OCMStub)
    (request : LDAPIdentityProviderRequest) : PhaseOutcome :=
  if request.desiredState then
    { result := NoRequeue
      err := none
      request := request
      calls := Calls.zero
      patchStatusArgs := [] }
  else
    match request.current with
    | none =>
      match ocm.createErr with
      | some e =>
        { result := RequeueAfter defaultLDAPIdentityProviderRequeue
          err := some (GoError.wrapped
            "unable to create ldap identity provider in ocm" e)
          request := request
          calls := { Calls.zero with create := 1 }
          patchStatusArgs := [] }
      | none =>
        { result := NoRequeue
          err := none
          request := request
          calls := { Calls.zero with create := 1 }
          patchStatusArgs := [] }
    | some _ =>
      match ocm.updateErr with
      | some e =>
        { result := RequeueAfter defaultLDAPIdentityProviderRequeue
          err := some (GoError.wrapped
            "unable to update ldap identity provider in ocm" e)
          request := request
          calls := { Calls.zero with update := 1 }
          patchStatusArgs := [] }
      | none =>
        { result := NoRequeue
          err := none
          request := request
          calls := { Calls.zero with update := 1 }
          patchStatusArgs := [] }

/-- Destroy from phases.go: return at once when the IdentityProviderDeleted
condition is already set on the object; otherwise issue the external delete —
on failure requeue after the default interval with a nil error (the delete
error is discarded) — and on success set the condition returned by
MachinePoolDeleted through updateCondition. -/
def Destroy (ocm : OCMStub) (store : ObjectStoreStub) (now : Nat)
    (request : LDAPIdentityProviderRequest) : PhaseOutcome :=
  if IsSet (IdentityProviderDeleted now) request.original then
    { result := NoRequeue
      err := none
      request := request
      calls := Calls.zero
      patchStatusArgs := [] }
  else
    match ocm.deleteErr with
    | some _ =>
      { result := RequeueAfter defaultLDAPIdentityProviderRequeue
        err := none
        request := request
        calls := { Calls.zero with delete := 1 }
        patchStatusArgs := [] }
    | none =>
      let upd := updateCondition store now request (MachinePoolDeleted now)
      match upd.2.2 with
      | some e =>
        { result := RequeueAfter defaultLDAPIdentityProviderRequeue
          err := some (GoError.wrapped "error updating reconciling condition" e)
          request := upd.1
          calls := { Calls.zero with delete := 1, patchStatus := upd.2.1 }
          patchStatusArgs := [] }
      | none =>
        { result := NoRequeue
          err := none
          request := upd.1
          calls := { Calls.zero with delete := 1, patchStatus := upd.2.1 }
          patchStatusArgs := [] }

/-- CompleteDestroy from phases.go: remove the finalizer through the
controllers helper; on patch failure requeue after the default interval with
a wrapped error. -/
def CompleteDestroy (store : ObjectStoreStub)
    (request : LDAPIdentityProviderRequest) : PhaseOutcome :=
  let rf := RemoveFinalizer store request.original
  match rf.2.2 with
  | some e =>
    { result := RequeueAfter defaultLDAPIdentityProviderRequeue
      err := some (GoError.wrapped "unable to remove finalizers" e)
      request := { request with original := rf.1 }
      calls := { Calls.zero with patch := rf.2.1 }
      patchStatusArgs := [] }
  | none =>
    { result := NoRequeue
      err := none
      request := { request with original := rf.1 }
      calls := { Calls.zero with patch := rf.2.1 }
      patchStatusArgs := [] }

/-- Initial accumulator for a pipeline run over the given request. -/
def initOutcome (request : LDAPIdentityProviderRequest) : PhaseOutcome :=
  { result := NoRequeue
    err := none
    request := request
    calls := Calls.zero
    patchStatusArgs := [] }

/-- Modelled from the spec: the pipeline runner of the missing controller.go
— phases run in order against the request, and the pipeline halts on the
first phase returning an error or a requeue directive; call counters and
patch transcripts accumulate. -/
def runPhase (acc : PhaseOutcome)
    (phase : LDAPIdentityProviderRequest → PhaseOutcome) : PhaseOutcome :=
  if acc.err.isSome || acc.result.requeue then
    acc
  else
    let out := phase acc.request
    { out with
        calls := acc.calls.add out.calls
        patchStatusArgs := acc.patchStatusArgs ++ out.patchStatusArgs }

/-- Modelled from the spec: ReconcileDelete of the missing controller.go —
the Delete pipeline Begin, Destroy, CompleteDestroy. -/
def ReconcileDelete (ocm : OCMStub) (store : ObjectStoreStub) (now : Nat)
    (request : LDAPIdentityProviderRequest) : PhaseOutcome :=
  runPhase (runPhase (runPhase (initOutcome request)
    (Begin store now)) (Destroy ocm store now)) (CompleteDestroy store)

/-- Modelled from the spec: triggers.GetTrigger from the missing
pkg/triggers package — a present deletion marker yields Delete; an object
with no recorded external identifier in status yields Create; otherwise
Update. -/
def GetTrigger (object : LDAPIdentityProvider) : Trigger :=
  if object.deletionTimestamp.isSome then Trigger.delete
  else if object.status.providerID = "" then Trigger.create
  else Trigger.update

/-- Which pipeline the dispatcher handed the request to, if any. -/
inductive PipelineChoice
  | createPipeline
  | updatePipeline
  | deletePipeline
  | noPipeline
deriving DecidableEq, Repr

/-- A controller as seen by the shared Reconcile dispatcher: the outcome of
NewRequest and the three per-trigger pipelines. -/
structure ControllerStub where
  newRequestErr : Option GoError
  newRequestValue : LDAPIdentityProviderRequest
  reconcileCreate : LDAPIdentityProviderRequest → CtrlResult × Option GoError
  reconcileUpdate : LDAPIdentityProviderRequest → CtrlResult × Option GoError
  reconcileDelete : LDAPIdentityProviderRequest → CtrlResult × Option GoError

/-- The trigger switch of Reconcile in controllers.go: route the request to
the pipeline whose string the classified trigger matches, and in the default
case return NoRequeue with a ReconcileError wrapping ErrTriggerUnknown. -/
def dispatchTrigger (c : ControllerStub) (req : ReconcileRequest)
    (request : LDAPIdentityProviderRequest) (trigger : Trigger) :
    CtrlResult × Option GoError × PipelineChoice :=
  if trigger.toString = CreateString then
    let out := c.reconcileCreate request
    (out.1, out.2, PipelineChoice.createPipeline)
  else if trigger.toString = UpdateString then
    let out := c.reconcileUpdate request
    (out.1, out.2, PipelineChoice.updatePipeline)
  else if trigger.toString = DeleteString then
    let out := c.reconcileDelete request
    (out.1, out.2, PipelineChoice.deletePipeline)
  else
    (NoRequeue,
      ReconcileError req "unable to determine controller trigger"
        (some ErrTriggerUnknown),
      PipelineChoice.noPipeline)

/-- Reconcile from controllers.go: build the request — dropping the work
with a nil error when NewRequest failed with a not-found error, returning
the wrapped error otherwise — then classify the trigger and dispatch. -/
def Reconcile (c : ControllerStub) (req : ReconcileRequest) :
    CtrlResult × Option GoError × PipelineChoice :=
  match c.newRequestErr with
  | some e =>
    if e.isNotFound then
      (NoRequeue, none, PipelineChoice.noPipeline)
    else
      (NoRequeue, some (GoError.wrapped "unable to create request" e),
        PipelineChoice.noPipeline)
  | none =>
    dispatchTrigger c req c.newRequestValue
      (GetTrigger c.newRequestValue.original)

/-- The cluster id GetCurrentState works with: the one recorded in status,
or else the one the cluster lookup returned. -/
def resolvedClusterID (ocm : OCMStub)
    (request : LDAPIdentityProviderRequest) : String :=
  if request.original.status.clusterID = "" then ocm.clusterGetID
  else request.original.status.clusterID

/-- Number of spec fields in which two LDAP identity provider specs differ;
the drift comparison is total exactly when every one of these fields is
compared. -/
def specFieldDiffCount (a b : LDAPIdentityProviderSpec) : Nat :=
  (if a.clusterName = b.clusterName then 0 else 1) +
  (if a.displayName = b.displayName then 0 else 1) +
  (if a.bindPasswordName = b.bindPasswordName then 0 else 1) +
  (if a.caName = b.caName then 0 else 1) +
  (if a.mappingMethod = b.mappingMethod then 0 else 1) +
  (if a.ldapConfig = b.ldapConfig then 0 else 1)

/-- Sample spec used to instantiate the theorems on concrete inputs. -/
def sampleSpec : LDAPIdentityProviderSpec :=
  { clusterName := "c1"
    displayName := "ldap1"
    bindPasswordName := "bind-secret"
    caName := "ca-config"
    mappingMethod := "claim"
    ldapConfig := "ldap-url" }

/-- Sample status carrying recorded identifiers. -/
def sampleStatus : LDAPIdentityProviderStatus :=
  { clusterID := "cid-1", providerID := "pid-1" }

/-- Sample object already carrying its deterministic finalizer token. -/
def sampleObject : LDAPIdentityProvider :=
  { kind := "LDAPIdentityProvider"
    group := "ocm.mobb.redhat.com"
    finalizers := ["ldapidentityprovider.ocm.mobb.redhat.com/finalizer"]
    deletionTimestamp := some 5
    spec := sampleSpec
    status := sampleStatus
    conditions := [] }

/-- Sample object with no finalizers recorded. -/
def sampleObjectNoFin : LDAPIdentityProvider :=
  { sampleObject with finalizers := [] }

/-- Object store stub whose patches all succeed. -/
def storeOK : ObjectStoreStub := { patchResult := none, patchStatusResult := none }

/-- Sample remote identity provider entity. -/
def sampleIdp : IdpEntity :=
  { id := "pid-1", mappingMethod := "claim", ldap := "ldap-url" }

/-- OCM stub on which every call succeeds and the lookup finds the sample
entity. -/
def ocmAllOK : OCMStub :=
  { clusterGetErr := none
    clusterGetID := "cid-1"
    idpGetErr := none
    idpGetEntity := some sampleIdp
    createErr := none
    updateErr := none
    deleteErr := none }

/-- OCM stub whose delete call fails. -/
def ocmDeleteFails : OCMStub :=
  { ocmAllOK with deleteErr := some (GoError.base "delete failed") }

/-- Sample request for the delete pipeline, deleted condition not yet set. -/
def sampleDeleteRequest : LDAPIdentityProviderRequest :=
  { original := sampleObject
    desired := sampleObject
    current := none
    trigger := Trigger.delete }

/-- Sample request whose object already records the deleted condition. -/
def sampleDeletedRequest : LDAPIdentityProviderRequest :=
  { sampleDeleteRequest with
      original := { sampleObject with conditions := [IdentityProviderDeleted 3] } }

/-- Controller stub whose NewRequest fails with a not-found error. -/
def controllerNotFound : ControllerStub :=
  { newRequestErr := some (GoError.notFound "object vanished")
    newRequestValue := sampleDeleteRequest
    reconcileCreate := fun _ => (NoRequeue, none)
    reconcileUpdate := fun _ => (NoRequeue, none)
    reconcileDelete := fun _ => (NoRequeue, none) }

/-- Controller stub whose NewRequest fails with a non-not-found error. -/
def controllerOtherErr : ControllerStub :=
  { controllerNotFound with newRequestErr := some (GoError.base "boom") }

/-- Controller stub whose NewRequest succeeds. -/
def controllerOK : ControllerStub :=
  { controllerNotFound with newRequestErr := none }

/-- Concrete recorded condition used to instantiate the transition-time
theorem: type Reconciling, status True, transition time 10. -/
def reconcilingOld : Condition :=
  { type := "Reconciling"
    status := ConditionStatus.isTrue
    reason := "Create"
    message := "old"
    lastTransitionTime := 10 }

/-- Concrete incoming condition matching reconcilingOld in type and status
but with a different message. -/
def reconcilingNewMsg : Condition :=
  { type := "Reconciling"
    status := ConditionStatus.isTrue
    reason := "Update"
    message := "new"
    lastTransitionTime := 99 }

/-- Concrete incoming condition matching reconcilingOld in type with a
flipped status. -/
def reconcilingFlipped : Condition :=
  { reconcilingNewMsg with status := ConditionStatus.isFalse }

/-- Concrete incoming condition of a type not yet recorded. -/
def reconciledNew : Condition :=
  { reconcilingNewMsg with type := "Reconciled" }

/-- Every error chain reaches itself. -/
theorem GoError.unwrapsTo_self (e : GoError) : e.unwrapsTo e = true := by
  cases e <;> simp [GoError.unwrapsTo]

/-- A wrapped error unwraps to its inner error. -/
theorem GoError.unwrapsTo_wrapped (msg : String) (inner target : GoError)
    (h : inner.unwrapsTo target = true) :
    (GoError.wrapped msg inner).unwrapsTo target = true := by
  simp [GoError.unwrapsTo, h]

/-- Appending the sought string makes membership true. -/
theorem containsString_append_self (l : List String) (s : String) :
    ContainsString (l ++ [s]) s = true := by
  simp [ContainsString]

/-- Filtering the sought string out makes membership false. -/
theorem containsString_filter_self (l : List String) (s : String) :
    ContainsString (l.filter (fun f => !decide (f = s))) s = false := by
  induction l with
  | nil => rfl
  | cons hd tl ih =>
    by_cases h : hd = s
    · simp [List.filter_cons, h, ih]
    · simp [List.filter_cons, h, ContainsString, List.any_cons, ih]

/-- RemoveFinalizer leaves an object whose finalizer set no longer contains
the deterministic token, whether or not the token was present. -/
theorem removeFinalizer_clears (store : ObjectStoreStub)
    (object : LDAPIdentityProvider) :
    ContainsString (RemoveFinalizer store object).1.finalizers
      (FinalizerName object) = false := by
  by_cases hc : ContainsString object.finalizers (FinalizerName object) = true
  · cases hpr : store.patchResult <;>
      simp [RemoveFinalizer, hc, hpr, containsString_filter_self]
  · simp at hc
    simp [RemoveFinalizer, hc]

/-- C10: ReconcileError is nil-preserving and error-preserving — a nil error
yields nil, and a non-nil error yields a non-nil error whose chain unwraps to
the original error. -/
theorem reconcileError_nil_and_wrap :
    (∀ (request : ReconcileRequest) (message : String),
      ReconcileError request message none = none) ∧
    (∀ (request : ReconcileRequest) (message : String) (e : GoError),
      (ReconcileError request message (some e)).isSome = true ∧
      errWraps (ReconcileError request message (some e)) e = true) := by
  refine ⟨fun request message => rfl, fun request message e => ⟨rfl, ?_⟩⟩
  simp [ReconcileError, errWraps]
  exact GoError.unwrapsTo_wrapped _ e e (GoError.unwrapsTo_self e)

/-- C4: the dispatcher switch routes a Create trigger to ReconcileCreate, an
Update trigger to ReconcileUpdate and a Delete trigger to ReconcileDelete,
and on any other classification returns a no-requeue result with a non-nil
error wrapping ErrTriggerUnknown, never falling back to the Update
pipeline. -/
theorem dispatcher_routing :
    (∀ (c : ControllerStub) (req : ReconcileRequest)
        (request : LDAPIdentityProviderRequest),
      dispatchTrigger c req request Trigger.create =
        ((c.reconcileCreate request).1, (c.reconcileCreate request).2,
          PipelineChoice.createPipeline)) ∧
    (∀ (c : ControllerStub) (req : ReconcileRequest)
        (request : LDAPIdentityProviderRequest),
      dispatchTrigger c req request Trigger.update =
        ((c.reconcileUpdate request).1, (c.reconcileUpdate request).2,
          PipelineChoice.updatePipeline)) ∧
    (∀ (c : ControllerStub) (req : ReconcileRequest)
        (request : LDAPIdentityProviderRequest),
      dispatchTrigger c req request Trigger.delete =
        ((c.reconcileDelete request).1, (c.reconcileDelete request).2,
          PipelineChoice.deletePipeline)) ∧
    (∀ (c : ControllerStub) (req : ReconcileRequest)
        (request : LDAPIdentityProviderRequest),
      (dispatchTrigger c req request Trigger.unknown).1 = NoRequeue ∧
      (dispatchTrigger c req request Trigger.unknown).2.1 ≠ none ∧
      errWraps (dispatchTrigger c req request Trigger.unknown).2.1
        ErrTriggerUnknown = true ∧
      (dispatchTrigger c req request Trigger.unknown).2.2 =
        PipelineChoice.noPipeline) ∧
    (∀ (c : ControllerStub) (req : ReconcileRequest),
      Reconcile { c with newRequestErr := none } req =
        dispatchTrigger { c with newRequestErr := none } req
          c.newRequestValue (GetTrigger c.newRequestValue.original)) := by
  refine ⟨fun c req request => ?_, fun c req request => ?_,
    fun c req request => ?_, fun c req request => ?_, fun c req => rfl⟩
  · simp [dispatchTrigger, Trigger.toString, CreateString]
  · simp [dispatchTrigger, Trigger.toString, CreateString, UpdateString]
  · simp [dispatchTrigger, Trigger.toString, CreateString, UpdateString,
      DeleteString]
  · refine ⟨?_, ?_, ?_, ?_⟩ <;>
      simp [dispatchTrigger, Trigger.toString, CreateString, UpdateString,
        DeleteString, ReconcileError, errWraps]
    exact GoError.unwrapsTo_wrapped _ _ _ (GoError.unwrapsTo_self _)

/-- C9: when NewRequest fails with a not-found error the dispatcher drops
the work, returning the no-requeue result and a nil error; on any other
NewRequest error it returns the no-requeue result with the error wrapped;
in both cases no pipeline runs. -/
theorem newRequest_error_handling (c : ControllerStub) (req : ReconcileRequest)
    (e : GoError) :
    (c.newRequestErr = some e → e.isNotFound = true →
      Reconcile c req = (NoRequeue, none, PipelineChoice.noPipeline)) ∧
    (c.newRequestErr = some e → e.isNotFound = false →
      Reconcile c req =
        (NoRequeue, some (GoError.wrapped "unable to create request" e),
          PipelineChoice.noPipeline)) := by
  constructor
  · intro h1 h2
    simp [Reconcile, h1, h2]
  · intro h1 h2
    simp [Reconcile, h1, h2]

/-- Witness for C9 at concrete controllers: one failing NewRequest with a
not-found error, one with another error. -/
theorem newRequest_error_handling_witness :
    Reconcile controllerNotFound { namespaceName := "ns", name := "obj" } =
      (NoRequeue, none, PipelineChoice.noPipeline) ∧
    Reconcile controllerOtherErr { namespaceName := "ns", name := "obj" } =
      (NoRequeue, some (GoError.wrapped "unable to create request"
        (GoError.base "boom")), PipelineChoice.noPipeline) := by
  constructor
  · exact (newRequest_error_handling controllerNotFound
      { namespaceName := "ns", name := "obj" }
      (GoError.notFound "object vanished")).1 rfl rfl
  · exact (newRequest_error_handling controllerOtherErr
      { namespaceName := "ns", name := "obj" }
      (GoError.base "boom")).2 rfl rfl

/-- C6: when the request is already in its desired state — Current non-nil
and structurally equal to Desired — Apply issues zero external create or
update calls and returns success with no requeue. -/
theorem idempotent_apply (ocm : OCMStub)
    (request : LDAPIdentityProviderRequest)
    (h : request.desiredState = true) :
    ApplyIdentityProvider ocm request =
      { result := NoRequeue
        err := none
        request := request
        calls := Calls.zero
        patchStatusArgs := [] } := by
  simp [ApplyIdentityProvider, h]

/-- Witness for C6: a request whose Current equals Desired on every spec
field short-circuits Apply. -/
theorem idempotent_apply_witness :
    ({ original := sampleObject
       desired := sampleObject
       current := some sampleObject
       trigger := Trigger.update :
        LDAPIdentityProviderRequest }).desiredState = true ∧
    ApplyIdentityProvider ocmAllOK
      { original := sampleObject
        desired := sampleObject
        current := some sampleObject
        trigger := Trigger.update } =
      { result := NoRequeue
        err := none
        request :=
          { original := sampleObject
            desired := sampleObject
            current := some sampleObject
            trigger := Trigger.update }
        calls := Calls.zero
        patchStatusArgs := [] } :=
  ⟨by decide, idempotent_apply ocmAllOK _ (by decide)⟩

/-- A single-field difference makes the two specs unequal. -/
theorem specFieldDiffCount_one_ne (a b : LDAPIdentityProviderSpec)
    (h : specFieldDiffCount a b = 1) : a ≠ b := by
  intro heq
  rw [heq] at h
  simp [specFieldDiffCount] at h

/-- C3: whenever Current is non-nil and differs from Desired in exactly one
spec field — the comparison ranging over cluster name, display name, bind
password secret name, CA name, mapping method and the LDAP block — Apply
issues exactly one external update call and no create call. -/
theorem drift_triggers_update (ocm : OCMStub)
    (request : LDAPIdentityProviderRequest) (current : LDAPIdentityProvider)
    (hcur : request.current = some current)
    (hdiff : specFieldDiffCount current.spec request.desired.spec = 1) :
    (ApplyIdentityProvider ocm request).calls.update = 1 ∧
    (ApplyIdentityProvider ocm request).calls.create = 0 := by
  have hne : current.spec ≠ request.desired.spec :=
    specFieldDiffCount_one_ne _ _ hdiff
  have hds : request.desiredState = false := by
    simp [LDAPIdentityProviderRequest.desiredState, hcur, hne]
  cases hupd : ocm.updateErr <;>
    simp [ApplyIdentityProvider, hds, hcur, hupd, Calls.zero]

/-- Witness for C3: a Current drifting from Desired in the mapping method
alone drives one update and no create. -/
theorem drift_triggers_update_witness :
    specFieldDiffCount
      ({ sampleObject with
          spec := { sampleSpec with mappingMethod := "add" } }).spec
      ({ original := sampleObject
         desired := sampleObject
         current := some { sampleObject with
           spec := { sampleSpec with mappingMethod := "add" } }
         trigger := Trigger.update :
          LDAPIdentityProviderRequest }).desired.spec = 1 ∧
    (ApplyIdentityProvider ocmAllOK
      { original := sampleObject
        desired := sampleObject
        current := some { sampleObject with
          spec := { sampleSpec with mappingMethod := "add" } }
        trigger := Trigger.update }).calls.update = 1 ∧
    (ApplyIdentityProvider ocmAllOK
      { original := sampleObject
        desired := sampleObject
        current := some { sampleObject with
          spec := { sampleSpec with mappingMethod := "add" } }
        trigger := Trigger.update }).calls.create = 0 :=
  ⟨by decide,
    drift_triggers_update ocmAllOK _ _ rfl (by decide)⟩

/-- FinalizerName depends only on kind and group, so updating the finalizer
set leaves it unchanged. -/
theorem finalizerName_update_finalizers (object : LDAPIdentityProvider)
    (fs : List String) :
    FinalizerName { object with finalizers := fs } = FinalizerName object := rfl

/-- FinalizerName depends only on kind and group, so updating the conditions
leaves it unchanged. -/
theorem finalizerName_update_conditions (object : LDAPIdentityProvider)
    (cs : List Condition) :
    FinalizerName { object with conditions := cs } = FinalizerName object := rfl

/-- Counterexample for C5 as stated: on an object that already carries its
deterministic finalizer token, calling AddFinalizer twice in sequence issues
zero patch calls, not exactly one. -/
theorem addFinalizer_twice_preexisting_cex :
    ContainsString sampleObject.finalizers (FinalizerName sampleObject) = true ∧
    (AddFinalizer storeOK sampleObject).2.1 +
      (AddFinalizer storeOK (AddFinalizer storeOK sampleObject).1).2.1 = 0 ∧
    ¬((AddFinalizer storeOK sampleObject).2.1 +
      (AddFinalizer storeOK (AddFinalizer storeOK sampleObject).1).2.1 = 1) := by
  decide

/-- C5 (amended): when the deterministic token is initially absent, calling
AddFinalizer twice in sequence issues exactly one patch call, the second
call being a no-op; when the token is already present both calls are no-ops
issuing zero patch calls; and calling RemoveFinalizer on an object whose
finalizer set does not contain the token issues zero patch calls and
returns success. -/
theorem finalizer_idempotence (store : ObjectStoreStub)
    (object : LDAPIdentityProvider) (hp : store.patchResult = none) :
    (ContainsString object.finalizers (FinalizerName object) = false →
      (AddFinalizer store object).2.1 +
        (AddFinalizer store (AddFinalizer store object).1).2.1 = 1) ∧
    (ContainsString object.finalizers (FinalizerName object) = true →
      (AddFinalizer store object).2.1 +
        (AddFinalizer store (AddFinalizer store object).1).2.1 = 0) ∧
    (ContainsString object.finalizers (FinalizerName object) = false →
      RemoveFinalizer store object = (object, 0, none)) := by
  refine ⟨fun h => ?_, fun h => ?_, fun h => ?_⟩
  · simp [AddFinalizer, h, hp, finalizerName_update_finalizers,
      containsString_append_self]
  · simp [AddFinalizer, h]
  · simp [RemoveFinalizer, h]

/-- Witness for the amended C5 at concrete objects: token initially absent
for the double-add and the remove no-op, token present for the double
no-op. -/
theorem finalizer_idempotence_witness :
    ((AddFinalizer storeOK sampleObjectNoFin).2.1 +
      (AddFinalizer storeOK (AddFinalizer storeOK sampleObjectNoFin).1).2.1 = 1) ∧
    ((AddFinalizer storeOK sampleObject).2.1 +
      (AddFinalizer storeOK (AddFinalizer storeOK sampleObject).1).2.1 = 0) ∧
    RemoveFinalizer storeOK sampleObjectNoFin = (sampleObjectNoFin, 0, none) :=
  ⟨(finalizer_idempotence storeOK sampleObjectNoFin rfl).1 (by decide),
    (finalizer_idempotence storeOK sampleObject rfl).2.1 (by decide),
    (finalizer_idempotence storeOK sampleObjectNoFin rfl).2.2 (by decide)⟩

/-- C8: merging a condition whose type and status match an already-recorded
condition but whose message differs leaves that condition's transition time
unchanged (only reason and message are replaced); merging a condition whose
status differs from the recorded one, or whose type is new, stores the
condition stamped with the current time. -/
theorem condition_transition_time_stability (conds : List Condition)
    (c e : Condition) (now : Nat) :
    (findCondition conds c.type = some e → e.status = c.status →
      findCondition (setCondition conds c now) c.type =
        some { e with reason := c.reason, message := c.message }) ∧
    (findCondition conds c.type = some e → e.status ≠ c.status →
      findCondition (setCondition conds c now) c.type =
        some { c with lastTransitionTime := now }) ∧
    (findCondition conds c.type = none →
      findCondition (setCondition conds c now) c.type =
        some { c with lastTransitionTime := now }) := by
  induction conds with
  | nil =>
    refine ⟨fun h => ?_, fun h => ?_, fun _ => ?_⟩
    · simp [findCondition] at h
    · simp [findCondition] at h
    · simp [setCondition, findCondition]
  | cons hd tl ih =>
    obtain ⟨ih1, ih2, ih3⟩ := ih
    by_cases htype : hd.type = c.type
    · by_cases hstat : hd.status = c.status
      · refine ⟨fun h hs => ?_, fun h hs => ?_, fun h => ?_⟩
        · have he : hd = e := by
            simpa [findCondition, List.find?, htype] using h
          subst he
          simp [setCondition, htype, hstat, findCondition, List.find?]
        · have he : hd = e := by
            simpa [findCondition, List.find?, htype] using h
          subst he
          exact absurd hstat hs
        · simp [findCondition, List.find?, htype] at h
      · refine ⟨fun h hs => ?_, fun h hs => ?_, fun h => ?_⟩
        · have he : hd = e := by
            simpa [findCondition, List.find?, htype] using h
          subst he
          exact absurd hs hstat
        · simp [setCondition, htype, hstat, findCondition, List.find?]
        · simp [findCondition, List.find?, htype] at h
    · refine ⟨fun h hs => ?_, fun h hs => ?_, fun h => ?_⟩
      · have h2 : findCondition tl c.type = some e := by
          simpa [findCondition, List.find?, htype] using h
        simpa [setCondition, htype, findCondition, List.find?] using ih1 h2 hs
      · have h2 : findCondition tl c.type = some e := by
          simpa [findCondition, List.find?, htype] using h
        simpa [setCondition, htype, findCondition, List.find?] using ih2 h2 hs
      · have h2 : findCondition tl c.type = none := by
          simpa [findCondition, List.find?, htype] using h
        simpa [setCondition, htype, findCondition, List.find?] using ih3 h2

/-- Witness for C8 at concrete conditions: a message-only edit keeps the
recorded transition time 10, a status flip stamps the new time 99, and a
fresh type is stored stamped with 99. -/
theorem condition_transition_time_stability_witness :
    findCondition (setCondition [reconcilingOld] reconcilingNewMsg 99)
      "Reconciling" =
      some { reconcilingOld with reason := "Update", message := "new" } ∧
    findCondition (setCondition [reconcilingOld] reconcilingFlipped 99)
      "Reconciling" = some reconcilingFlipped ∧
    findCondition (setCondition [reconcilingOld] reconciledNew 99)
      "Reconciled" = some reconciledNew :=
  ⟨(condition_transition_time_stability [reconcilingOld] reconcilingNewMsg
      reconcilingOld 99).1 (by decide) rfl,
    (condition_transition_time_stability [reconcilingOld] reconcilingFlipped
      reconcilingOld 99).2.1 (by decide) (by decide),
    (condition_transition_time_stability [reconcilingOld] reconciledNew
      reconciledNew 99).2.2 (by decide)⟩

/-- C7: with the cluster id already recorded in status, when the external
store reports no identity provider GetCurrentState returns success with no
requeue, leaves the request — hence Current and the object status —
untouched and issues no status patch; when it reports an entity, the phase
issues exactly one status patch whose diff base is the pre-mutation object
and whose target carries the resolved cluster id and provider id, populates
Current, and returns success. -/
theorem getCurrentState_found_vs_not_found (ocm : OCMStub)
    (store : ObjectStoreStub) (request : LDAPIdentityProviderRequest)
    (hres : request.original.status.clusterID ≠ "" ∨
      (request.original.status.clusterID = "" ∧ ocm.clusterGetErr = none ∧
        ocm.clusterGetID ≠ ""))
    (hgeterr : ocm.idpGetErr = none) :
    (ocm.idpGetEntity = none →
      GetCurrentState ocm store request =
        { result := NoRequeue
          err := none
          request := request
          calls := Calls.zero
          patchStatusArgs := [] }) ∧
    (∀ idp : IdpEntity, ocm.idpGetEntity = some idp →
      store.patchStatusResult = none →
      GetCurrentState ocm store request =
        { result := NoRequeue
          err := none
          request :=
            { request with
                original :=
                  { request.original with
                      status :=
                        { clusterID := resolvedClusterID ocm request
                          providerID := idp.id } }
                current := some (currentFromRemote request idp) }
          calls := { Calls.zero with patchStatus := 1 }
          patchStatusArgs :=
            [(request.original,
              { request.original with
                  status :=
                    { clusterID := resolvedClusterID ocm request
                      providerID := idp.id } })] }) := by
  rcases hres with hcid | ⟨hcid, hcerr, hcid2⟩
  · constructor
    · intro hnone
      simp [GetCurrentState, hcid, getCurrentStateAfterCluster, hgeterr, hnone]
    · intro idp hsome hps
      simp [GetCurrentState, hcid, getCurrentStateAfterCluster, hgeterr,
        hsome, hps, resolvedClusterID]
  · constructor
    · intro hnone
      simp [GetCurrentState, hcid, hcerr, hcid2, getCurrentStateAfterCluster,
        hgeterr, hnone]
    · intro idp hsome hps
      simp [GetCurrentState, hcid, hcerr, hcid2, getCurrentStateAfterCluster,
        hgeterr, hsome, hps, resolvedClusterID]

/-- Witness for C7: a request with the cluster id recorded, exercising both
the not-found branch (entity absent, request untouched, zero patches) and
the found branch (entity present, one status patch and Current
populated). -/
theorem getCurrentState_found_vs_not_found_witness :
    GetCurrentState { ocmAllOK with idpGetEntity := none } storeOK
      sampleDeleteRequest =
      { result := NoRequeue
        err := none
        request := sampleDeleteRequest
        calls := Calls.zero
        patchStatusArgs := [] } ∧
    GetCurrentState ocmAllOK storeOK sampleDeleteRequest =
      { result := NoRequeue
        err := none
        request :=
          { sampleDeleteRequest with
              original :=
                { sampleObject with
                    status := { clusterID := "cid-1", providerID := "pid-1" } }
              current :=
                some (currentFromRemote sampleDeleteRequest sampleIdp) }
        calls := { Calls.zero with patchStatus := 1 }
        patchStatusArgs :=
          [(sampleObject,
            { sampleObject with
                status := { clusterID := "cid-1", providerID := "pid-1" } })] } :=
  ⟨(getCurrentState_found_vs_not_found { ocmAllOK with idpGetEntity := none }
      storeOK sampleDeleteRequest (Or.inl (by decide)) rfl).1 rfl,
    (getCurrentState_found_vs_not_found ocmAllOK storeOK sampleDeleteRequest
      (Or.inl (by decide)) rfl).2 sampleIdp rfl rfl⟩

/-- Merging a condition of one type does not change whether a condition of a
different type is recorded. -/
theorem any_setCondition_type_ne (conds : List Condition) (c d : Condition)
    (now : Nat) (h : ¬(d.type = c.type)) :
    ((setCondition conds c now).any
      (fun x => decide (x.type = d.type) && decide (x.status = d.status))) =
    (conds.any
      (fun x => decide (x.type = d.type) && decide (x.status = d.status))) := by
  have h2 : ¬(c.type = d.type) := fun hh => h hh.symm
  induction conds with
  | nil => simp [setCondition, List.any_cons, h2]
  | cons hd tl ih =>
    by_cases htype : hd.type = c.type
    · by_cases hstat : hd.status = c.status
      · simp [setCondition, htype, hstat, List.any_cons, h2]
      · simp [setCondition, htype, hstat, List.any_cons, h2]
    · simp [setCondition, htype, List.any_cons, ih]

/-- IsSet for a condition of one type is unchanged by merging a condition of
a different type into the object. -/
theorem isSet_setCondition_ne (object : LDAPIdentityProvider)
    (c d : Condition) (now : Nat) (h : ¬(d.type = c.type)) :
    IsSet d
      { object with
          conditions := setCondition object.conditions c now } =
      IsSet d object := by
  simp only [IsSet]
  exact any_setCondition_type_ne object.conditions c d now h

/-- RemoveFinalizer never errors when the object store patch succeeds. -/
theorem removeFinalizer_err_none (store : ObjectStoreStub)
    (hp : store.patchResult = none) (object : LDAPIdentityProvider) :
    (RemoveFinalizer store object).2.2 = none := by
  by_cases hc : ContainsString object.finalizers (FinalizerName object) = true
  · simp [RemoveFinalizer, hc, hp]
  · simp at hc
    simp [RemoveFinalizer, hc]

/-- CompleteDestroy under a succeeding object store: no error, no requeue,
the finalizer removal applied to the original, and only the patches
RemoveFinalizer issued. -/
theorem completeDestroy_ok (store : ObjectStoreStub)
    (hp : store.patchResult = none)
    (request : LDAPIdentityProviderRequest) :
    CompleteDestroy store request =
      { result := NoRequeue
        err := none
        request :=
          { request with original := (RemoveFinalizer store request.original).1 }
        calls :=
          { Calls.zero with
              patch := (RemoveFinalizer store request.original).2.1 }
        patchStatusArgs := [] } := by
  simp [CompleteDestroy, removeFinalizer_err_none store hp request.original]

/-- C1: when the object already carries the deleted condition — type
IdentityProviderDeleted with status True, the type the Destroy guard checks,
as opposed to the MachinePoolDeleted type a successful delete sets — the
Destroy phase issues zero external delete calls, and the Delete pipeline
completes without error, proceeding through CompleteDestroy so that the
final object no longer carries the finalizer token. -/
theorem delete_idempotence (ocm : OCMStub) (store : ObjectStoreStub)
    (now : Nat) (request : LDAPIdentityProviderRequest)
    (hset : IsSet (IdentityProviderDeleted now) request.original = true)
    (hps : store.patchStatusResult = none)
    (hp : store.patchResult = none) :
    (Destroy ocm store now request).calls.delete = 0 ∧
    (ReconcileDelete ocm store now request).calls.delete = 0 ∧
    (ReconcileDelete ocm store now request).err = none ∧
    ContainsString
      (ReconcileDelete ocm store now request).request.original.finalizers
      (FinalizerName request.original) = false := by
  have hbegin : Begin store now request =
      { result := NoRequeue
        err := none
        request :=
          { request with
              original :=
                { request.original with
                    conditions :=
                      setCondition request.original.conditions
                        (Reconciling request.trigger now) now } }
        calls := { Calls.zero with patchStatus := 1 }
        patchStatusArgs := [] } := by
    simp [Begin, updateCondition, hps]
  have hset1 : IsSet (IdentityProviderDeleted now)
      { request.original with
          conditions :=
            setCondition request.original.conditions
              (Reconciling request.trigger now) now } = true := by
    have htne :
        ¬((IdentityProviderDeleted now).type =
          (Reconciling request.trigger now).type) := by
      show ¬("IdentityProviderDeleted" = "Reconciling")
      decide
    rw [isSet_setCondition_ne request.original
      (Reconciling request.trigger now) (IdentityProviderDeleted now) now htne]
    exact hset
  have hfinal :
      ReconcileDelete ocm store now request =
      { result := NoRequeue
        err := none
        request :=
          { request with
              original :=
                (RemoveFinalizer store
                  { request.original with
                      conditions :=
                        setCondition request.original.conditions
                          (Reconciling request.trigger now) now }).1 }
        calls :=
          { create := 0
            update := 0
            delete := 0
            patch :=
              (RemoveFinalizer store
                { request.original with
                    conditions :=
                      setCondition request.original.conditions
                        (Reconciling request.trigger now) now }).2.1
            patchStatus := 1 }
        patchStatusArgs := [] } := by
    simp [ReconcileDelete, runPhase, initOutcome, hbegin, Destroy, hset1,
      completeDestroy_ok store hp, Calls.add, Calls.zero, NoRequeue]
  refine ⟨by simp [Destroy, hset, Calls.zero], ?_, ?_, ?_⟩
  · rw [hfinal]
  · rw [hfinal]
  · rw [hfinal]
    have hclear := removeFinalizer_clears store
      { request.original with
          conditions :=
            setCondition request.original.conditions
              (Reconciling request.trigger now) now }
    rwa [finalizerName_update_conditions] at hclear

/-- Witness for C1: a delete request whose object already records the
IdentityProviderDeleted condition runs the whole Delete pipeline with zero
external delete calls, no error, and the finalizer token removed. -/
theorem delete_idempotence_witness :
    (Destroy ocmAllOK storeOK 7 sampleDeletedRequest).calls.delete = 0 ∧
    (ReconcileDelete ocmAllOK storeOK 7 sampleDeletedRequest).calls.delete = 0 ∧
    (ReconcileDelete ocmAllOK storeOK 7 sampleDeletedRequest).err = none ∧
    ContainsString
      (ReconcileDelete ocmAllOK storeOK 7
        sampleDeletedRequest).request.original.finalizers
      (FinalizerName sampleDeletedRequest.original) = false :=
  delete_idempotence ocmAllOK storeOK 7 sampleDeletedRequest (by decide)
    rfl rfl

/-- Counterexample for C2 as stated: on a concrete request whose external
delete call fails, the Destroy phase halts with the requeue-after-interval
directive but returns a nil error — the underlying delete error is
swallowed, not surfaced. -/
theorem destroy_swallows_delete_error_cex :
    (Destroy ocmDeleteFails storeOK 7 sampleDeleteRequest).calls.delete = 1 ∧
    (Destroy ocmDeleteFails storeOK 7 sampleDeleteRequest).result =
      RequeueAfter defaultLDAPIdentityProviderRequeue ∧
    (Destroy ocmDeleteFails storeOK 7 sampleDeleteRequest).err = none ∧
    ¬((Destroy ocmDeleteFails storeOK 7 sampleDeleteRequest).err ≠ none) := by
  decide

/-- C2 (amended): for every reconciliation in which the external delete call
fails, the Destroy phase halts with a requeue-after-interval directive and a
nil error — the underlying error is discarded, not wrapped and surfaced. -/
theorem destroy_delete_failure_requeues_swallowing_error (ocm : OCMStub)
    (store : ObjectStoreStub) (now : Nat)
    (request : LDAPIdentityProviderRequest) (e : GoError)
    (hset : IsSet (IdentityProviderDeleted now) request.original = false)
    (hdel : ocm.deleteErr = some e) :
    Destroy ocm store now request =
      { result := RequeueAfter defaultLDAPIdentityProviderRequeue
        err := none
        request := request
        calls := { Calls.zero with delete := 1 }
        patchStatusArgs := [] } := by
  simp [Destroy, hset, hdel]

/-- Witness for the amended C2 at a concrete failing delete. -/
theorem destroy_delete_failure_witness :
    Destroy ocmDeleteFails storeOK 7 sampleDeleteRequest =
      { result := RequeueAfter defaultLDAPIdentityProviderRequeue
        err := none
        request := sampleDeleteRequest
        calls := { Calls.zero with delete := 1 }
        patchStatusArgs := [] } :=
  destroy_delete_failure_requeues_swallowing_error ocmDeleteFails storeOK 7
    sampleDeleteRequest (GoError.base "delete failed") (by decide) rfl

end OcmOperator
